import Mathlib

/-!
Shallow embedding of `infra/recipes/jiri.py`, the build-orchestration
recipe for jiri.  The recipe's `RunSteps` is a linear pipeline: input
resolution (a "cq" category overrides repo_url/refspec from Gerrit
coordinates), assertion-based validation, a fixed sequence of calls to
the jiri / git / go collaborators, and a build plus a test invocation.

Python strings that may be `None` are modelled as `Option String`;
Python truthiness of such values is `pyTruthy`; `'%s' % x` applied to a
possibly-`None` value is `pyStr` (Python renders `None` as `"None"`).
Collaborator calls are not executed but recorded, in order, in a trace
(`List Call`); a Python exception (failed `assert`, `AttributeError`,
unpacking `ValueError`) ends the run with `RunResult.err`, keeping the
trace of calls already made.
-/

/-- Python's `s.rstrip(c)` for a single strip character: remove all
trailing occurrences of `c`. -/
def rstripChar (s : String) (c : Char) : String :=
  String.mk ((s.data.reverse.dropWhile (fun x => x == c)).reverse)

/-- Python's `s.startswith(p)`. -/
def startswith (s p : String) : Bool :=
  p.data.isPrefixOf s.data

/-- Auxiliary for Python `str.split(sep, maxsplit)` with a one-character
separator: `acc` is the (reversed) current field, the `Nat` is the number
of splits still allowed. -/
def splitCharAux (c : Char) : Nat → List Char → List Char → List (List Char)
  | _, acc, [] => [acc.reverse]
  | 0, acc, rest => [acc.reverse ++ rest]
  | Nat.succ m, acc, x :: xs =>
    if x == c then acc.reverse :: splitCharAux c m [] xs
    else splitCharAux c (Nat.succ m) (x :: acc) xs

/-- Python's `s.split(c, maxsplit)` for a one-character separator. -/
def pySplit (s : String) (c : Char) (maxsplit : Nat) : List String :=
  (splitCharAux c maxsplit [] s.data).map String.mk

/-- Python truthiness of an optional string: `None` and `''` are falsy. -/
def pyTruthy : Option String → Bool
  | none => false
  | some s => s != ""

/-- Python `'%s' % x` for a possibly-`None` string: `None` prints as
`"None"`. -/
def pyStr : Option String → String
  | none => "None"
  | some s => s

/-- The recipe's trigger properties (the `PROPERTIES` dict).  `gerrit`,
`patch_project`, `event.patchSet.ref`, `repository` and `category`
default to `None`; `refspec` defaults to `'master'`; `manifest`,
`remote` and `target` have no default and are modelled as plain
strings. -/
structure Props where
  category : Option String
  repo_url : Option String
  refspec : Option String
  gerrit_host : Option String
  gerrit_project : Option String
  gerrit_patch_ref : Option String
  manifest : String
  remote : String
  target : String
deriving DecidableEq, Repr

/-- A value placed in a step environment: a workspace-relative path
(e.g. `api.path['slave_build'].join('go')`) or a plain string. -/
inductive EnvVal where
  | path (parts : List String)
  | str (s : String)
deriving DecidableEq, Repr

/-- One call to an external collaborator (`api.jiri`, `api.go`,
`api.git`), with the arguments the recipe passes. -/
inductive Call where
  | ensure_jiri
  | set_config (name : String)
  | clean_project
  | import_manifest (manifest : String) (remote : String) (overwrite : Bool)
  | update (gc : Bool)
  | patch (ref : Option String) (host : Option String) (delete : Bool) (force : Bool)
  | install_go
  | rev_parse (cwd : List String)
  | build (packages : List String) (ldflags : String) (force : Bool)
      (env : List (String × EnvVal))
  | test (packages : List String) (env : List (String × EnvVal))
      (envArg : List (String × EnvVal))
deriving DecidableEq, Repr

/-- Outcome of a run: normal completion, or a Python exception
(`AssertionError`, `AttributeError`, `ValueError`) with a message. -/
inductive RunResult where
  | ok
  | err (msg : String)
deriving DecidableEq, Repr

/-- Lines 42-45: if `category == 'cq'`, assert the Gerrit host uses
https and override `repo_url` with `gerrit_host.rstrip('/') + '/' +
gerrit_project` and `refspec` with `gerrit_patch_ref`; otherwise the
supplied `repo_url`/`refspec` pass through.  A `None` host raises
`AttributeError` at `.startswith`. -/
def resolveInputs (p : Props) : Except String (Option String × Option String) :=
  if p.category = some "cq" then
    match p.gerrit_host with
    | none => Except.error "AttributeError: NoneType has no attribute startswith"
    | some h =>
      if startswith h "https://" then
        Except.ok
          (some (rstripChar h '/' ++ "/" ++ pyStr p.gerrit_project),
           p.gerrit_patch_ref)
      else Except.error "AssertionError: gerrit_host.startswith"
  else Except.ok (p.repo_url, p.refspec)

/-- Lines 47-48: `assert repo_url and refspec`, then
`assert repo_url.startswith('https://')`. -/
def validate (repo_url refspec : Option String) : Except String Unit :=
  if pyTruthy repo_url && pyTruthy refspec then
    if startswith (repo_url.getD "") "https://" then Except.ok ()
    else Except.error "AssertionError: repo_url.startswith"
  else Except.error "AssertionError: repository url and refspec must be given"

/-- The checkout directory `api.path['slave_build'].join('go', 'src',
'fuchsia.googlesource.com', 'jiri')`, as parts under the workspace
root. -/
def srcdir : List String :=
  ["go", "src", "fuchsia.googlesource.com", "jiri"]

/-- `api.path['slave_build'].join('go')`, as parts under the workspace
root. -/
def gopath : List String :=
  ["go"]

/-- The hard-coded package path built and tested by the recipe. -/
def jiriPkg : String :=
  "fuchsia.googlesource.com/jiri/cmd/jiri"

/-- Line 66: the linker-flags string, with the resolved commit hash and
the build timestamp substituted in. -/
def ldflags (git_commit build_time : String) : String :=
  "-X \"fuchsia.googlesource.com/jiri/version.GitCommit=" ++ git_commit ++
    "\" -X \"fuchsia.googlesource.com/jiri/version.BuildTime=" ++ build_time ++ "\""

/-- Lines 50-57: the jiri collaborator calls, in program order. -/
def jiriCalls (p : Props) : List Call :=
  [Call.ensure_jiri, Call.set_config "jiri", Call.clean_project,
   Call.import_manifest p.manifest p.remote true, Call.update true] ++
  (if p.category = some "cq" then
    [Call.patch p.gerrit_patch_ref p.gerrit_host true true]
  else [])

/-- Lines 50-63: every collaborator call made before the target string
is parsed (jiri calls, `install_go`, `rev_parse`). -/
def preBuildCalls (p : Props) : List Call :=
  jiriCalls p ++ [Call.install_go, Call.rev_parse srcdir]

/-- The whole of `RunSteps` (lines 40-77).  `git_commit` is the value
returned by the `rev_parse` collaborator and `build_time` the ambient
`datetime.now().isoformat('T')` timestamp; both are inputs of the
embedding because they come from outside the recipe.  The result is the
ordered trace of collaborator calls together with the run outcome. -/
def RunSteps (p : Props) (git_commit build_time : String) :
    List Call × RunResult :=
  match resolveInputs p with
  | Except.error e => ([], RunResult.err e)
  | Except.ok (repo_url, refspec) =>
    match validate repo_url refspec with
    | Except.error e => ([], RunResult.err e)
    | Except.ok _ =>
      match pySplit p.target '-' 2 with
      | [goos, goarch] =>
        (preBuildCalls p ++
          [Call.build [jiriPkg] (ldflags git_commit build_time) true
            [("GOPATH", EnvVal.path gopath), ("GOOS", EnvVal.str goos),
             ("GOARCH", EnvVal.str goarch)],
           Call.test [jiriPkg] [("GOPATH", EnvVal.path gopath)]
             [("GOPATH", EnvVal.path gopath)]],
         RunResult.ok)
      | _ => (preBuildCalls p, RunResult.err "ValueError: unpacking target.split")

/-- `resolveInputs` succeeded and both validation asserts passed. -/
def passesValidation (p : Props) : Bool :=
  match resolveInputs p with
  | Except.ok (u, r) =>
    match validate u r with
    | Except.ok _ => true
    | Except.error _ => false
  | Except.error _ => false

/-- The scheduler-style test input of `GenTests` (no category). -/
def pScheduler : Props :=
  { category := none
    repo_url := some "https://fuchsia.googlesource.com/jiri"
    refspec := some "master"
    gerrit_host := none
    gerrit_project := none
    gerrit_patch_ref := none
    manifest := "jiri"
    remote := "https://fuchsia.googlesource.com/manifest"
    target := "linux-amd64" }

/-- The cq-style test input of `GenTests`. -/
def pCq : Props :=
  { category := some "cq"
    repo_url := some "https://fuchsia.googlesource.com/jiri"
    refspec := some "master"
    gerrit_host := some "https://fuchsia-review.googlesource.com"
    gerrit_project := some "jiri"
    gerrit_patch_ref := some "refs/changes/0/1/2"
    manifest := "jiri"
    remote := "https://fuchsia.googlesource.com/manifest"
    target := "linux-amd64" }

/-- A scheduler-style input whose repository URL uses plain http. -/
def pBadScheme : Props :=
  { pScheduler with repo_url := some "http://fuchsia.googlesource.com/jiri" }

/-- The cq-style input with the Gerrit project left unset (`None`). -/
def pCqNoProj : Props :=
  { pCq with gerrit_project := none }

/-- A scheduler-style input whose target has no hyphen. -/
def pBadTarget : Props :=
  { pScheduler with target := "linux" }

example : pySplit "linux-amd64" '-' 2 = ["linux", "amd64"] := by decide

example : pySplit "linux-amd64-variant" '-' 2 = ["linux", "amd64", "variant"] := by
  decide

example : pySplit "linux" '-' 2 = ["linux"] := by decide

example : rstripChar "https://h///" '/' = "https://h" := by decide

example :
    resolveInputs pCq =
      Except.ok (some "https://fuchsia-review.googlesource.com/jiri",
        some "refs/changes/0/1/2") := by
  rfl

example : passesValidation pScheduler = true := by decide

/-! ### Helper lemmas about the string primitives -/

theorem splitCharAux_no_sep (c : Char) (m : Nat) (acc l : List Char)
    (h : c ∉ l) : splitCharAux c m acc l = [acc.reverse ++ l] := by
  induction l generalizing m acc with
  | nil => cases m <;> simp [splitCharAux]
  | cons x xs ih =>
    have hx : (x == c) = false := by
      refine beq_eq_false_iff_ne.mpr fun hxc => h ?_
      subst hxc
      exact List.mem_cons_self x xs
    have hxs : c ∉ xs := fun hm => h (List.mem_cons_of_mem x hm)
    cases m with
    | zero => simp [splitCharAux]
    | succ m => simp [splitCharAux, hx, ih _ _ hxs]

theorem splitCharAux_sep (c : Char) (m : Nat) (acc l1 l2 : List Char)
    (h : c ∉ l1) :
    splitCharAux c (m + 1) acc (l1 ++ c :: l2) =
      (acc.reverse ++ l1) :: splitCharAux c m [] l2 := by
  induction l1 generalizing acc with
  | nil => simp [splitCharAux]
  | cons x xs ih =>
    have hx : (x == c) = false := by
      refine beq_eq_false_iff_ne.mpr fun hxc => h ?_
      subst hxc
      exact List.mem_cons_self x xs
    have hxs : c ∉ xs := fun hm => h (List.mem_cons_of_mem x hm)
    simp [splitCharAux, hx, ih _ hxs]

theorem pySplit_os_arch (os arch : String) (h1 : '-' ∉ os.data)
    (h2 : '-' ∉ arch.data) : pySplit (os ++ "-" ++ arch) '-' 2 = [os, arch] := by
  have hdata : (os ++ "-" ++ arch).data = os.data ++ '-' :: arch.data := by
    simp [String.data_append]
  unfold pySplit
  rw [hdata, splitCharAux_sep _ _ _ _ _ h1, splitCharAux_no_sep _ _ _ _ h2]
  simp

theorem startswith_append (s t p : String) (h : startswith s p = true) :
    startswith (s ++ t) p = true := by
  unfold startswith at h ⊢
  rw [String.data_append]
  rw [List.isPrefixOf_iff_prefix] at h ⊢
  exact h.trans (List.prefix_append _ _)

theorem startswith_ne_empty (s : String) (h : startswith s "https://" = true) :
    s ≠ "" := by
  intro he
  subst he
  exact absurd h (by decide)

theorem dropWhile_replicate_append (c : Char) (k : Nat) (l : List Char) :
    List.dropWhile (fun x => x == c) (List.replicate k c ++ l) =
      List.dropWhile (fun x => x == c) l := by
  induction k with
  | zero => simp
  | succ k ih => simp [List.replicate_succ, List.dropWhile, ih]

theorem rstripChar_append_replicate (s : String) (c : Char) (k : Nat) :
    rstripChar (s ++ String.mk (List.replicate k c)) c = rstripChar s c := by
  unfold rstripChar
  rw [String.data_append]
  simp [List.reverse_append, dropWhile_replicate_append]

/-! ### Helper lemmas about the run trace -/

theorem passesValidation_ok (p : Props) (hv : passesValidation p = true) :
    ∃ u r, resolveInputs p = Except.ok (u, r) ∧ validate u r = Except.ok () := by
  unfold passesValidation at hv
  cases hres : resolveInputs p with
  | error e => rw [hres] at hv; simp at hv
  | ok ur =>
    obtain ⟨u, r⟩ := ur
    rw [hres] at hv
    simp only [] at hv
    cases hval : validate u r with
    | error e => rw [hval] at hv; simp at hv
    | ok a => exact ⟨u, r, rfl, by cases a; exact hval⟩

theorem runSteps_ok (p : Props) (c t os arch : String)
    (hv : passesValidation p = true)
    (hs : pySplit p.target '-' 2 = [os, arch]) :
    RunSteps p c t =
      (preBuildCalls p ++
        [Call.build [jiriPkg] (ldflags c t) true
          [("GOPATH", EnvVal.path gopath), ("GOOS", EnvVal.str os),
           ("GOARCH", EnvVal.str arch)],
         Call.test [jiriPkg] [("GOPATH", EnvVal.path gopath)]
           [("GOPATH", EnvVal.path gopath)]], RunResult.ok) := by
  obtain ⟨u, r, hres, hval⟩ := passesValidation_ok p hv
  unfold RunSteps
  rw [hres]
  simp [hval, hs]

theorem runSteps_badsplit (p : Props) (c t : String)
    (hv : passesValidation p = true)
    (hbad : (pySplit p.target '-' 2).length ≠ 2) :
    RunSteps p c t =
      (preBuildCalls p, RunResult.err "ValueError: unpacking target.split") := by
  obtain ⟨u, r, hres, hval⟩ := passesValidation_ok p hv
  unfold RunSteps
  rw [hres]
  rcases hl : pySplit p.target '-' 2 with _ | ⟨a, _ | ⟨b, _ | ⟨d, l⟩⟩⟩
  · simp [hval, hl]
  · simp [hval, hl]
  · rw [hl] at hbad; simp at hbad
  · simp [hval, hl]

theorem runSteps_starts_with_jiri (p : Props) (c t : String)
    (hv : passesValidation p = true) :
    ∃ rest, (RunSteps p c t).1 = jiriCalls p ++ rest ∧
      ∀ ref host d f, Call.patch ref host d f ∉ rest := by
  by_cases hl : (pySplit p.target '-' 2).length = 2
  · obtain ⟨a, b, hab⟩ := List.length_eq_two.mp hl
    refine ⟨[Call.install_go, Call.rev_parse srcdir,
      Call.build [jiriPkg] (ldflags c t) true
        [("GOPATH", EnvVal.path gopath), ("GOOS", EnvVal.str a),
         ("GOARCH", EnvVal.str b)],
      Call.test [jiriPkg] [("GOPATH", EnvVal.path gopath)]
        [("GOPATH", EnvVal.path gopath)]], ?_, ?_⟩
    · rw [runSteps_ok p c t a b hv hab]
      simp [preBuildCalls, List.append_assoc]
    · intro ref host d f
      simp
  · refine ⟨[Call.install_go, Call.rev_parse srcdir], ?_, ?_⟩
    · rw [runSteps_badsplit p c t hv hl]
      simp [preBuildCalls]
    · intro ref host d f
      simp

theorem resolveInputs_cq_eq (p : Props) (h : String)
    (hc : p.category = some "cq") (hh : p.gerrit_host = some h)
    (hs : startswith h "https://" = true) :
    resolveInputs p =
      Except.ok (some (rstripChar h '/' ++ "/" ++ pyStr p.gerrit_project),
        p.gerrit_patch_ref) := by
  unfold resolveInputs
  simp [hc, hh, hs]

/-! ### Claim theorems -/

/-- C1: whenever `category = "cq"` (and the Gerrit host is a string
passing the `https://` assertion, so that resolution completes), the
resolved repository URL is the host with trailing slashes stripped,
concatenated with `"/"` and the project, and the resolved refspec is
`gerrit_patch_ref` — the supplied `repo_url`/`refspec` of `p` are
arbitrary and ignored. -/
theorem cq_override_resolution (p : Props) (h : String)
    (hc : p.category = some "cq") (hh : p.gerrit_host = some h)
    (hs : startswith h "https://" = true) :
    resolveInputs p =
      Except.ok (some (rstripChar h '/' ++ "/" ++ pyStr p.gerrit_project),
        p.gerrit_patch_ref) :=
  resolveInputs_cq_eq p h hc hh hs

theorem cq_override_resolution_witness :
    resolveInputs pCq =
      Except.ok
        (some (rstripChar "https://fuchsia-review.googlesource.com" '/' ++ "/" ++
          pyStr pCq.gerrit_project), pCq.gerrit_patch_ref) :=
  cq_override_resolution pCq "https://fuchsia-review.googlesource.com" rfl rfl
    (by decide)

/-- C2: if input resolution yields a repo_url/refspec pair in which the
repo_url is `None` or empty, or the refspec is `None` or empty, or the
repo_url does not start with `"https://"`, the run aborts with an empty
trace: no jiri, git or go collaborator call is made. -/
theorem invalid_inputs_abort (p : Props) (c t : String) (u r : Option String)
    (hres : resolveInputs p = Except.ok (u, r))
    (hbad : u = none ∨ u = some "" ∨ r = none ∨ r = some "" ∨
      startswith (u.getD "") "https://" = false) :
    (RunSteps p c t).1 = [] ∧ (RunSteps p c t).2 ≠ RunResult.ok := by
  have hval : ∃ e, validate u r = Except.error e := by
    unfold validate
    rcases hbad with h | h | h | h | h
    · subst h; simp [pyTruthy]
    · subst h; simp [pyTruthy]
    · subst h; simp [pyTruthy]
    · subst h; simp [pyTruthy]
    · by_cases ht : (pyTruthy u && pyTruthy r) = true
      · simp [ht, h]
      · simp [ht]
  obtain ⟨e, hval⟩ := hval
  unfold RunSteps
  rw [hres]
  simp [hval]

theorem invalid_inputs_abort_witness :
    (RunSteps pBadScheme "c0ffee" "2016-01-01T00:00:00").1 = [] ∧
    (RunSteps pBadScheme "c0ffee" "2016-01-01T00:00:00").2 ≠ RunResult.ok :=
  invalid_inputs_abort pBadScheme "c0ffee" "2016-01-01T00:00:00"
    (some "http://fuchsia.googlesource.com/jiri") (some "master") rfl
    (Or.inr (Or.inr (Or.inr (Or.inr (by decide)))))

/-- C3: a target of the form `OS ++ "-" ++ ARCH` with hyphen-free
components splits (under Python `split('-', 2)`) into exactly
`[OS, ARCH]`, and this pair is passed verbatim as the GOOS and GOARCH
entries of the build step's environment. -/
theorem target_split_build_env (p : Props) (c t os arch : String)
    (hv : passesValidation p = true)
    (hos : '-' ∉ os.data) (harch : '-' ∉ arch.data)
    (ht : p.target = os ++ "-" ++ arch) :
    pySplit p.target '-' 2 = [os, arch] ∧
    Call.build [jiriPkg] (ldflags c t) true
      [("GOPATH", EnvVal.path gopath), ("GOOS", EnvVal.str os),
       ("GOARCH", EnvVal.str arch)] ∈ (RunSteps p c t).1 := by
  have hs : pySplit p.target '-' 2 = [os, arch] := by
    rw [ht]
    exact pySplit_os_arch os arch hos harch
  refine ⟨hs, ?_⟩
  rw [runSteps_ok p c t os arch hv hs]
  simp

theorem target_split_build_env_witness :
    pySplit pScheduler.target '-' 2 = ["linux", "amd64"] ∧
    Call.build [jiriPkg] (ldflags "c0ffee" "2016-01-01T00:00:00") true
      [("GOPATH", EnvVal.path gopath), ("GOOS", EnvVal.str "linux"),
       ("GOARCH", EnvVal.str "amd64")] ∈
      (RunSteps pScheduler "c0ffee" "2016-01-01T00:00:00").1 :=
  target_split_build_env pScheduler "c0ffee" "2016-01-01T00:00:00" "linux" "amd64"
    (by decide) (by decide) (by decide) rfl

/-- C4: every run that passes input validation invokes the jiri
collaborator in the fixed order ensure, set_config, clean,
import_manifest (overwrite), update (gc); a patch call (delete, force)
follows the update exactly when `category = "cq"` — and the remainder
of the trace contains no patch call, so no patch is invoked when
`category ≠ "cq"`. -/
theorem jiri_calls_in_order (p : Props) (c t : String)
    (hv : passesValidation p = true) :
    ∃ rest, (RunSteps p c t).1 =
      [Call.ensure_jiri, Call.set_config "jiri", Call.clean_project,
       Call.import_manifest p.manifest p.remote true, Call.update true] ++
      (if p.category = some "cq" then
        [Call.patch p.gerrit_patch_ref p.gerrit_host true true]
      else []) ++ rest ∧
      ∀ ref host d f, Call.patch ref host d f ∉ rest := by
  obtain ⟨rest, hr, hnp⟩ := runSteps_starts_with_jiri p c t hv
  refine ⟨rest, ?_, hnp⟩
  rw [hr]
  simp [jiriCalls, List.append_assoc]

theorem jiri_calls_in_order_witness :
    ∃ rest, (RunSteps pCq "c0ffee" "2016-01-01T00:00:00").1 =
      [Call.ensure_jiri, Call.set_config "jiri", Call.clean_project,
       Call.import_manifest pCq.manifest pCq.remote true, Call.update true] ++
      (if pCq.category = some "cq" then
        [Call.patch pCq.gerrit_patch_ref pCq.gerrit_host true true]
      else []) ++ rest ∧
      ∀ ref host d f, Call.patch ref host d f ∉ rest :=
  jiri_calls_in_order pCq "c0ffee" "2016-01-01T00:00:00" (by decide)

/-- C5: when `category` is not `"cq"`, input resolution passes the
caller-supplied `repo_url` and `refspec` through unchanged. -/
theorem noncq_passthrough (p : Props) (hc : p.category ≠ some "cq") :
    resolveInputs p = Except.ok (p.repo_url, p.refspec) := by
  unfold resolveInputs
  simp [hc]

theorem noncq_passthrough_witness :
    resolveInputs pScheduler =
      Except.ok (pScheduler.repo_url, pScheduler.refspec) :=
  noncq_passthrough pScheduler (by decide)

/-- C6: the build call runs in an environment holding exactly GOPATH,
GOOS and GOARCH (in that order), while the test call's scoped
environment (and its explicit env argument) hold GOPATH only. -/
theorem build_env_full_test_env_gopath (p : Props) (c t os arch : String)
    (hv : passesValidation p = true)
    (hs : pySplit p.target '-' 2 = [os, arch]) :
    ∃ pre, (RunSteps p c t).1 = pre ++
      [Call.build [jiriPkg] (ldflags c t) true
        [("GOPATH", EnvVal.path gopath), ("GOOS", EnvVal.str os),
         ("GOARCH", EnvVal.str arch)],
       Call.test [jiriPkg] [("GOPATH", EnvVal.path gopath)]
         [("GOPATH", EnvVal.path gopath)]] :=
  ⟨preBuildCalls p, by rw [runSteps_ok p c t os arch hv hs]⟩

theorem build_env_full_test_env_gopath_witness :
    ∃ pre, (RunSteps pScheduler "c0ffee" "2016-01-01T00:00:00").1 = pre ++
      [Call.build [jiriPkg] (ldflags "c0ffee" "2016-01-01T00:00:00") true
        [("GOPATH", EnvVal.path gopath), ("GOOS", EnvVal.str "linux"),
         ("GOARCH", EnvVal.str "amd64")],
       Call.test [jiriPkg] [("GOPATH", EnvVal.path gopath)]
         [("GOPATH", EnvVal.path gopath)]] :=
  build_env_full_test_env_gopath pScheduler "c0ffee" "2016-01-01T00:00:00"
    "linux" "amd64" (by decide) (by decide)

/-- C7: the linker-flags string of the build call consists of exactly
two `-X` substitutions — the version module's GitCommit set to the
commit hash obtained from `rev_parse` on the checkout directory, and
its BuildTime set to the timestamp — and both the build and the test
call target the fixed package `fuchsia.googlesource.com/jiri/cmd/jiri`. -/
theorem ldflags_and_fixed_package (p : Props)
    (git_commit build_time os arch : String)
    (hv : passesValidation p = true)
    (hs : pySplit p.target '-' 2 = [os, arch]) :
    ∃ pre e1 e2 e3,
      (RunSteps p git_commit build_time).1 = pre ++
        [Call.build ["fuchsia.googlesource.com/jiri/cmd/jiri"]
          ("-X \"fuchsia.googlesource.com/jiri/version.GitCommit=" ++ git_commit ++
            "\" -X \"fuchsia.googlesource.com/jiri/version.BuildTime=" ++
            build_time ++ "\"") true e1,
         Call.test ["fuchsia.googlesource.com/jiri/cmd/jiri"] e2 e3] ∧
      Call.rev_parse srcdir ∈ pre := by
  refine ⟨preBuildCalls p,
    [("GOPATH", EnvVal.path gopath), ("GOOS", EnvVal.str os),
     ("GOARCH", EnvVal.str arch)],
    [("GOPATH", EnvVal.path gopath)], [("GOPATH", EnvVal.path gopath)], ?_, ?_⟩
  · rw [runSteps_ok p git_commit build_time os arch hv hs]
    rfl
  · simp [preBuildCalls]

theorem ldflags_and_fixed_package_witness :
    ∃ pre e1 e2 e3,
      (RunSteps pScheduler "c0ffee" "2016-01-01T00:00:00").1 = pre ++
        [Call.build ["fuchsia.googlesource.com/jiri/cmd/jiri"]
          ("-X \"fuchsia.googlesource.com/jiri/version.GitCommit=" ++ "c0ffee" ++
            "\" -X \"fuchsia.googlesource.com/jiri/version.BuildTime=" ++
            "2016-01-01T00:00:00" ++ "\"") true e1,
         Call.test ["fuchsia.googlesource.com/jiri/cmd/jiri"] e2 e3] ∧
      Call.rev_parse srcdir ∈ pre :=
  ldflags_and_fixed_package pScheduler "c0ffee" "2016-01-01T00:00:00"
    "linux" "amd64" (by decide) (by decide)

/-- C8: the Gerrit project is never validated in the cq branch — with a
secure, slash-free host, a project of `None` resolves the repo_url to
`host ++ "/None"` and an empty project to `host ++ "/"`; validation
still passes and the pipeline goes on to the collaborator calls. -/
theorem gerrit_project_unvalidated (p : Props) (c t h : String)
    (hc : p.category = some "cq") (hh : p.gerrit_host = some h)
    (hs : startswith h "https://" = true) (hns : rstripChar h '/' = h)
    (hpr : pyTruthy p.gerrit_patch_ref = true)
    (_hproj : p.gerrit_project = none ∨ p.gerrit_project = some "") :
    resolveInputs p =
      Except.ok (some (h ++ "/" ++ pyStr p.gerrit_project),
        p.gerrit_patch_ref) ∧
    (p.gerrit_project = none →
      h ++ "/" ++ pyStr p.gerrit_project = h ++ "/None") ∧
    (p.gerrit_project = some "" →
      h ++ "/" ++ pyStr p.gerrit_project = h ++ "/") ∧
    passesValidation p = true ∧
    (RunSteps p c t).1.head? = some Call.ensure_jiri := by
  have hres : resolveInputs p =
      Except.ok (some (h ++ "/" ++ pyStr p.gerrit_project),
        p.gerrit_patch_ref) := by
    rw [resolveInputs_cq_eq p h hc hh hs, hns]
  have hsw : startswith (h ++ "/" ++ pyStr p.gerrit_project) "https://" = true :=
    startswith_append _ _ _ (startswith_append _ _ _ hs)
  have hne : (h ++ "/" ++ pyStr p.gerrit_project) ≠ "" :=
    startswith_ne_empty _ hsw
  have htr : pyTruthy (some (h ++ "/" ++ pyStr p.gerrit_project)) = true := by
    simp [pyTruthy, hne]
  have hval : validate (some (h ++ "/" ++ pyStr p.gerrit_project))
      p.gerrit_patch_ref = Except.ok () := by
    unfold validate
    rw [htr, hpr]
    simp [hsw]
  have hv : passesValidation p = true := by
    unfold passesValidation
    rw [hres]
    simp [hval]
  refine ⟨hres, ?_, ?_, hv, ?_⟩
  · intro hp
    rw [hp]
    rw [String.append_assoc]
    rfl
  · intro hp
    rw [hp]
    rw [String.append_assoc]
    rfl
  · obtain ⟨rest, hr, _⟩ := runSteps_starts_with_jiri p c t hv
    rw [hr]
    simp [jiriCalls]

theorem gerrit_project_unvalidated_witness :
    resolveInputs pCqNoProj =
      Except.ok
        (some ("https://fuchsia-review.googlesource.com" ++ "/" ++
          pyStr pCqNoProj.gerrit_project), pCqNoProj.gerrit_patch_ref) ∧
    (pCqNoProj.gerrit_project = none →
      "https://fuchsia-review.googlesource.com" ++ "/" ++
        pyStr pCqNoProj.gerrit_project =
        "https://fuchsia-review.googlesource.com" ++ "/None") ∧
    (pCqNoProj.gerrit_project = some "" →
      "https://fuchsia-review.googlesource.com" ++ "/" ++
        pyStr pCqNoProj.gerrit_project =
        "https://fuchsia-review.googlesource.com" ++ "/") ∧
    passesValidation pCqNoProj = true ∧
    (RunSteps pCqNoProj "c0ffee" "2016-01-01T00:00:00").1.head? =
      some Call.ensure_jiri :=
  gerrit_project_unvalidated pCqNoProj "c0ffee" "2016-01-01T00:00:00"
    "https://fuchsia-review.googlesource.com" rfl rfl (by decide) (by decide)
    (by decide) (Or.inl rfl)

/-- C9: a target that does not split into exactly two hyphen-separated
fields makes the run fail only at the platform-parsing step, after all
jiri calls, the toolchain installation and the commit-hash resolution
have been performed; no build or test call is made. -/
theorem invalid_target_fails_after_side_effects (p : Props) (c t : String)
    (hv : passesValidation p = true)
    (hbad : (pySplit p.target '-' 2).length ≠ 2) :
    RunSteps p c t =
      ([Call.ensure_jiri, Call.set_config "jiri", Call.clean_project,
        Call.import_manifest p.manifest p.remote true, Call.update true] ++
       (if p.category = some "cq" then
         [Call.patch p.gerrit_patch_ref p.gerrit_host true true]
       else []) ++
       [Call.install_go, Call.rev_parse srcdir],
       RunResult.err "ValueError: unpacking target.split") := by
  rw [runSteps_badsplit p c t hv hbad]
  rfl

theorem invalid_target_fails_after_side_effects_witness :
    RunSteps pBadTarget "c0ffee" "2016-01-01T00:00:00" =
      ([Call.ensure_jiri, Call.set_config "jiri", Call.clean_project,
        Call.import_manifest pBadTarget.manifest pBadTarget.remote true,
        Call.update true] ++
       (if pBadTarget.category = some "cq" then
         [Call.patch pBadTarget.gerrit_patch_ref pBadTarget.gerrit_host true true]
       else []) ++
       [Call.install_go, Call.rev_parse srcdir],
       RunResult.err "ValueError: unpacking target.split") :=
  invalid_target_fails_after_side_effects pBadTarget "c0ffee"
    "2016-01-01T00:00:00" (by decide) (by decide)

/-- C10: for a cq run with a secure host, appending any number of extra
trailing slash characters to the Gerrit host leaves input resolution —
in particular the resolved repo_url — unchanged. -/
theorem cq_host_trailing_slash_invariant (p : Props) (h : String) (k : Nat)
    (hc : p.category = some "cq") (hh : p.gerrit_host = some h)
    (hs : startswith h "https://" = true) :
    resolveInputs
        { p with gerrit_host := some (h ++ String.mk (List.replicate k '/')) } =
      resolveInputs p := by
  have hs2 : startswith (h ++ String.mk (List.replicate k '/')) "https://" = true :=
    startswith_append _ _ _ hs
  rw [resolveInputs_cq_eq p h hc hh hs]
  rw [resolveInputs_cq_eq
    { p with gerrit_host := some (h ++ String.mk (List.replicate k '/')) }
    (h ++ String.mk (List.replicate k '/')) hc rfl hs2]
  rw [rstripChar_append_replicate]

theorem cq_host_trailing_slash_invariant_witness :
    resolveInputs { pCq with gerrit_host := some ("https://fuchsia-review.googlesource.com" ++ String.mk (List.replicate 3 '/')) } =
      resolveInputs pCq :=
  cq_host_trailing_slash_invariant pCq
    "https://fuchsia-review.googlesource.com" 3 rfl rfl (by decide)
